import Mathlib

/-!
Verification of the Java peer-code-review workflow core
(`workflow/node.py`, `workflow/conditions.py`, `workflow/builder.py`,
`utils/code_utils.py`) as a shallow embedding in Lean 4.

Python dictionaries read through `get_field_value` / `get_state_attribute`
(`utils/language_utils.py`) are embedded as typed structures: every use
site in the workflow core reads a field that is either always present in
the dictionary it is read from or falls back to a fixed default, so plain
field access (with `Option` for fields that can be `None`) is
observationally equivalent.  External capabilities (the LLM, the error
repository, the code comparator, the student-review evaluator, prompt
builders) are parameters of the node functions / step relation, exactly
at the call sites where `node.py` invokes them.
-/

namespace PeerReview

/-- A single error record (a Python dict).  `some` marks a key that is
present; `none` marks an absent key (`"name" not in error`). -/
structure ErrorDict where
  type : Option String
  name : Option String
  error_name : Option String
  check_name : Option String
deriving DecidableEq

/-- `state_schema.CodeSnippet`, from its two construction sites in
`node.py` (lines 140-147 and 463-469): both build
`raw_errors = {"java_errors": ...}`, so `raw_errors` is embedded as the
`java_errors` list itself. -/
structure CodeSnippet where
  code : String
  clean_code : String
  raw_errors : List ErrorDict
  expected_error_count : Nat
deriving DecidableEq

/-- The evaluation dictionary stored into `state.evaluation_result` by
`evaluate_code_node` (missing keys behave as their `get_field_value`
defaults: absent `extra_errors` reads as `[]`). -/
structure EvaluationResult where
  found_errors : List String
  missing_errors : List String
  extra_errors : List String
  valid : Bool
  feedback : String
  original_error_count : Nat
deriving DecidableEq

/-- The raw return value of the external comparator
`self.code_evaluation.evaluate_code` in `evaluate_code_node`:
either a well-formed dictionary or anything else (`malformed`,
the `not isinstance(raw_evaluation_result, dict)` branch). -/
structure EvalDict where
  found_errors : List String
  missing_errors : List String
  extra_errors : List String
  valid : Bool
  feedback : String
deriving DecidableEq

inductive RawEvalResult where
  | malformed : RawEvalResult
  | dict : EvalDict → RawEvalResult
deriving DecidableEq

/-- The review-analysis dictionary produced by the external
`evaluator.evaluate_review` and post-processed by `analyze_review_node`.
Percentages are Python floats computed by exact small-integer division;
they are embedded as rationals. -/
structure ReviewAnalysis where
  identified_count : Nat
  total_problems : Nat
  identified_percentage : ℚ
  accuracy_percentage : ℚ
  review_sufficient : Bool
  original_error_count : Nat
deriving DecidableEq

/-- One entry of `state.review_history` (`state_schema.ReviewIteration`).
`analysis` is `none` until `analyze_review_node` fills it in. -/
structure ReviewIteration where
  iteration_number : Nat
  student_review : String
  analysis : Option ReviewAnalysis
  targeted_guidance : Option String
deriving DecidableEq

/-- The workflow session state (`state_schema.WorkflowState`), restricted
to the fields the workflow core reads or writes.
`selected_error_categories` is embedded as its `java_errors` list: every
use site (`node.py` line 96, `code_utils.py` lines 469-475) only tests
the dict for truthiness together with that list, so an empty dict and a
dict with an empty `java_errors` list are indistinguishable. -/
structure WorkflowState where
  current_step : String
  evaluation_attempts : Nat
  max_evaluation_attempts : Nat
  current_iteration : Nat
  max_iterations : Nat
  review_sufficient : Bool
  original_error_count : Nat
  domain : Option String
  difficulty_level : String
  code_length : String
  selected_error_categories : List String
  selected_specific_errors : List ErrorDict
  code_snippet : Option CodeSnippet
  evaluation_result : Option EvaluationResult
  code_generation_feedback : Option String
  review_history : List ReviewIteration
  error : Option String
deriving DecidableEq

/-- The difficulty fallback map of `get_error_count_from_state`
(`code_utils.py` lines 478-482): `difficulty_map.get(lower, 4)`. -/
def difficultyMap (difficulty_level : String) : Nat :=
  if difficulty_level.toLower = "easy" then 2
  else if difficulty_level.toLower = "medium" then 4
  else if difficulty_level.toLower = "hard" then 6
  else 4

/-- `get_error_count_from_state` (`code_utils.py` lines 446-482). -/
def get_error_count_from_state (s : WorkflowState) (difficulty_level : String) : Nat :=
  if s.selected_specific_errors.length > 0 then
    s.selected_specific_errors.length
  else if s.original_error_count > 0 then
    s.original_error_count
  else if s.selected_error_categories.length > 0 then
    max s.selected_error_categories.length 2
  else
    difficultyMap difficulty_level

/-- External inputs consumed by one run of `generate_code_node`:
the random domain choice, the error repository's
`get_errors_for_llm` result, and the parsed LLM response
(`extract_both_code_versions`). -/
structure GenEnv where
  domain_choice : String
  repo_errors : List ErrorDict
  annotated : String
  clean : String
deriving DecidableEq

/-- The tail of `generate_code_node` (`node.py` lines 124-155): build the
snippet from the parsed LLM response and record the reconciled count. -/
def finishGenerate (env : GenEnv) (s : WorkflowState)
    (selected_errors : List ErrorDict) (original_error_count : Nat) : WorkflowState :=
  { s with
    original_error_count := original_error_count,
    code_snippet := some
      { code := env.annotated, clean_code := env.clean,
        raw_errors := selected_errors,
        expected_error_count := original_error_count },
    current_step := "evaluate" }

/-- `generate_code_node` (`node.py` lines 37-160).  The prompt text sent
to the LLM is out of scope; the parsed response is `env`. -/
def generate_code_node (env : GenEnv) (s0 : WorkflowState) : WorkflowState :=
  let difficulty_level := s0.difficulty_level
  let selected_error_categories := s0.selected_error_categories
  let selected_specific_errors := s0.selected_specific_errors
  let s1 := { s0 with
    evaluation_attempts := 0,
    evaluation_result := none,
    code_generation_feedback := none }
  let s2 := if s1.domain.getD "" = "" then { s1 with domain := some env.domain_choice } else s1
  if selected_specific_errors.length > 0 then
    if selected_specific_errors = [] then
      { s2 with error := some "no_specific_errors_selected" }
    else
      finishGenerate env s2 selected_specific_errors selected_specific_errors.length
  else
    if selected_error_categories = [] then
      { s2 with error := some "no_categories" }
    else
      let required_error_count := get_error_count_from_state s2 difficulty_level
      let selected_errors := env.repo_errors
      if selected_errors.length < required_error_count then
        finishGenerate env s2 selected_errors selected_errors.length
      else if selected_errors.length > required_error_count then
        finishGenerate env s2 (selected_errors.take required_error_count) required_error_count
      else
        finishGenerate env s2 selected_errors required_error_count

/-- Per-error normalization inside `_extract_requested_errors`
(`node.py` lines 534-551). -/
def normalizeError (e0 : ErrorDict) : ErrorDict :=
  let e1 := if e0.type.isNone then { e0 with type := some "java_error" } else e0
  let e2 :=
    if e1.name.isNone then
      match e1.error_name with
      | some n => { e1 with name := some n }
      | none => e1
    else e1
  if e2.name.isNone then
    match e2.check_name with
    | some n => { e2 with name := some n }
    | none => e2
  else e2

/-- `WorkflowNodes._extract_requested_errors` (`node.py` lines 500-572). -/
def extract_requested_errors (s : WorkflowState) : List ErrorDict :=
  match s.code_snippet with
  | none => []
  | some cs =>
    let fromSnippet := (cs.raw_errors.map normalizeError).filter (fun e => e.name.isSome)
    if fromSnippet.isEmpty then
      s.selected_specific_errors.filter (fun e => e.name.isSome && e.type.isSome)
    else fromSnippet

/-- The missing-error rendering of the malformed-comparator branch
(`node.py` line 214): `f"{error.get('type', '').upper()} - {error.get('name', '')}"`. -/
def formatMissing (e : ErrorDict) : String :=
  (e.type.getD "").toUpper ++ " - " ++ e.name.getD ""

/-- `evaluate_code_node` (`node.py` lines 162-308).  `raw` is the return
value of the external comparator; `fb` is the regeneration prompt built
by the (out-of-scope) prompt builders at lines 251-279. -/
def evaluate_code_node (raw : RawEvalResult) (fb : String) (s0 : WorkflowState) : WorkflowState :=
  match s0.code_snippet with
  | none => { s0 with error := some "no_code_snippet_evaluation" }
  | some cs =>
    let requested_errors := extract_requested_errors s0
    let requested_count := requested_errors.length
    let oec1 := if s0.original_error_count = 0 then cs.expected_error_count else s0.original_error_count
    let original_error_count := if oec1 = 0 then requested_count else oec1
    let evaluation_result : EvaluationResult :=
      match raw with
      | RawEvalResult.malformed =>
        { found_errors := [],
          missing_errors := requested_errors.map formatMissing,
          extra_errors := [],
          valid := false,
          feedback := "Error in evaluation.",
          original_error_count := original_error_count }
      | RawEvalResult.dict d =>
        { found_errors := d.found_errors,
          missing_errors := d.missing_errors,
          extra_errors := d.extra_errors,
          valid := d.missing_errors.length = 0,
          feedback := d.feedback,
          original_error_count := original_error_count }
    let missing_count := evaluation_result.missing_errors.length
    let needs_regeneration := missing_count > 0
    let s1 := { s0 with
      original_error_count := original_error_count,
      evaluation_result := some evaluation_result,
      evaluation_attempts := s0.evaluation_attempts + 1,
      code_generation_feedback := some fb }
    let next_step :=
      if evaluation_result.valid then "review"
      else if needs_regeneration ∧ s1.evaluation_attempts < s1.max_evaluation_attempts then "regenerate"
      else "review"
    { s1 with current_step := next_step }

/-- `WorkflowConditions.should_regenerate_or_review`
(`conditions.py` lines 24-71). -/
def should_regenerate_or_review (s : WorkflowState) : String :=
  if s.current_step = "regenerate" then "regenerate_code"
  else if (match s.evaluation_result with
           | some r => r.valid
           | none => false) then "review_code"
  else
    let has_missing_errors : Bool :=
      match s.evaluation_result with
      | some r => decide (r.missing_errors.length > 0)
      | none => false
    let has_extra_errors : Bool :=
      match s.evaluation_result with
      | some r => decide (r.extra_errors.length > 0)
      | none => false
    if (has_missing_errors ∨ has_extra_errors) ∧
        s.evaluation_attempts < s.max_evaluation_attempts then "regenerate_code"
    else "review_code"

/-- `WorkflowConditions.should_continue_review`
(`conditions.py` lines 73-121).  The Python function mutates
`state.review_sufficient` in its third rule, so it is embedded as
returning the decision together with the updated state. -/
def should_continue_review (s : WorkflowState) : String × WorkflowState :=
  if s.current_iteration > s.max_iterations then ("generate_summary", s)
  else if s.review_sufficient then ("generate_summary", s)
  else
    match s.review_history.getLast? with
    | none => ("continue_review", s)
    | some latest_review =>
      match latest_review.analysis with
      | none => ("continue_review", s)
      | some a =>
        if a.identified_count = a.total_problems ∧ a.total_problems > 0 then
          ("generate_summary", { s with review_sufficient := true })
        else ("continue_review", s)

/-- Replace the last element of a list in place (the Python mutation
`latest_review.analysis = ...` on `review_history[-1]`). -/
def updateLast (f : ReviewIteration → ReviewIteration) :
    List ReviewIteration → List ReviewIteration
  | [] => []
  | [a] => [f a]
  | a :: b :: rest => a :: updateLast f (b :: rest)

/-- `analyze_review_node` (`node.py` lines 310-416).  `rawA` is the raw
analysis returned by the external `evaluator.evaluate_review`; `g` is
the targeted-guidance text returned by
`evaluator.generate_targeted_guidance`. -/
def analyze_review_node (rawA : ReviewAnalysis) (g : String) (s : WorkflowState) : WorkflowState :=
  if s.review_history.isEmpty then { s with error := some "no_review_submitted" }
  else
    match s.code_snippet with
    | none => { s with error := some "no_code_snippet_available" }
    | some _cs =>
      let original_error_count := s.original_error_count
      let analysis :=
        if original_error_count > 0 then
          { rawA with
            total_problems := original_error_count,
            original_error_count := original_error_count,
            identified_percentage :=
              (rawA.identified_count : ℚ) / (original_error_count : ℚ) * 100,
            accuracy_percentage :=
              (rawA.identified_count : ℚ) / (original_error_count : ℚ) * 100,
            review_sufficient :=
              if rawA.identified_count = original_error_count then true
              else rawA.review_sufficient }
        else rawA
      let review_sufficient := analysis.review_sufficient
      let needs_guidance := review_sufficient = false ∧ s.current_iteration < s.max_iterations
      let history := updateLast (fun lr =>
        { lr with
          analysis := some analysis,
          targeted_guidance := if needs_guidance then some g else lr.targeted_guidance })
        s.review_history
      { s with
        review_history := history,
        review_sufficient := review_sufficient,
        current_iteration := s.current_iteration + 1,
        current_step := "analyze" }

/-- `regenerate_code_node`, LLM branch (`node.py` lines 418-475): the
old snippet is used to extract the requested errors, then replaced
wholesale.  The Python constructor call passes no
`expected_error_count`; the schema default (state_schema.py is not in
the sources; per the spec the field exists with the count unset on this
path) is embedded as 0. -/
def regenerate_code_node_llm (annotated clean : String) (s : WorkflowState) : WorkflowState :=
  let requested_errors := extract_requested_errors s
  { s with
    code_snippet := some
      { code := annotated, clean_code := clean,
        raw_errors := requested_errors, expected_error_count := 0 },
    current_step := "evaluate" }

/-- `review_code_node` (`node.py` lines 486-498). -/
def review_code_node (s : WorkflowState) : WorkflowState :=
  { s with current_step := "review" }

/-- Modelled from the spec: `state_schema.py` (the `WorkflowState`
defaults) is not among the sources.  Per spec §3 the session is created
fresh at session start ("full reset"), §8 fixes `current_iteration`
starting at 1, and the defaults used by `conditions.py` (lines 39-40,
88-90) and `main_ui.py` (line 66) give `evaluation_attempts = 0`,
`max_evaluation_attempts = 3`, `max_iterations = 3`,
`review_sufficient = false`, with no snippet, result, feedback, history
or error yet.  The user-chosen generation parameters are arguments. -/
def initState (code_length difficulty : String) (categories : List String)
    (specific : List ErrorDict) : WorkflowState :=
  { current_step := "generate",
    evaluation_attempts := 0,
    max_evaluation_attempts := 3,
    current_iteration := 1,
    max_iterations := 3,
    review_sufficient := false,
    original_error_count := 0,
    domain := none,
    difficulty_level := difficulty,
    code_length := code_length,
    selected_error_categories := categories,
    selected_specific_errors := specific,
    code_snippet := none,
    evaluation_result := none,
    code_generation_feedback := none,
    review_history := [],
    error := none }

/-- Modelled from the spec: the `submit_review` driver (spec §6) that
runs between the `review_code` placeholder node and `analyze_review` is
not among the sources (only `review_tab.py` calling it is).  Per spec §3
it appends one `ReviewIteration` carrying the student's text to the
append-only `review_history`, with `iteration_number` the session's
current iteration. -/
def submit_review_append (text : String) (s : WorkflowState) : WorkflowState :=
  { s with
    review_history := s.review_history ++
      [{ iteration_number := s.current_iteration, student_review := text,
         analysis := none, targeted_guidance := none }] }

/-- The nodes of the LangGraph workflow graph (`builder.py` lines
72-91), plus the `generate_summary` terminal sink. -/
inductive Node where
  | generate_code
  | evaluate_code
  | regenerate_code
  | review_code
  | analyze_review
  | generate_summary
deriving DecidableEq

/-- The conditional edge out of `evaluate_code` (`builder.py` lines
103-110): route on `should_regenerate_or_review`. -/
def evalNext (s : WorkflowState) : Node :=
  if should_regenerate_or_review s = "regenerate_code" then Node.regenerate_code
  else Node.review_code

/-- The conditional edge out of `analyze_review` (`builder.py` lines
113-120): route on `should_continue_review`. -/
def analyzeNext (decision : String) : Node :=
  if decision = "continue_review" then Node.review_code
  else Node.generate_summary

/-- One super-step of the workflow graph: run the node handler on the
incoming state, then follow its (possibly conditional) outgoing edge.
The constructors' extra arguments are the external inputs consumed by
that node (LLM responses, comparator and evaluator outputs, the
student's review text).  `regenerate_code` has the two branches of
`node.py` lines 436-479: LLM present, or fallback to full generation. -/
inductive Step : Node → WorkflowState → Node → WorkflowState → Prop where
  | generate (env : GenEnv) (s : WorkflowState) :
      Step Node.generate_code s Node.evaluate_code (generate_code_node env s)
  | evaluate (raw : RawEvalResult) (fb : String) (s : WorkflowState) :
      Step Node.evaluate_code s
        (evalNext (evaluate_code_node raw fb s)) (evaluate_code_node raw fb s)
  | regenerate_llm (annotated clean : String) (s : WorkflowState) :
      Step Node.regenerate_code s Node.evaluate_code
        (regenerate_code_node_llm annotated clean s)
  | regenerate_fallback (env : GenEnv) (s : WorkflowState) :
      Step Node.regenerate_code s Node.evaluate_code (generate_code_node env s)
  | review (text : String) (s : WorkflowState) :
      Step Node.review_code s Node.analyze_review
        (submit_review_append text (review_code_node s))
  | analyze (rawA : ReviewAnalysis) (g : String) (s : WorkflowState) :
      Step Node.analyze_review s
        (analyzeNext (should_continue_review (analyze_review_node rawA g s)).1)
        (should_continue_review (analyze_review_node rawA g s)).2

/-- Reflexive-transitive closure of `Step`: the configurations a session
can pass through. -/
inductive Reach : Node → WorkflowState → Node → WorkflowState → Prop where
  | refl (n : Node) (s : WorkflowState) : Reach n s n s
  | tail {n₁ : Node} {s₁ : WorkflowState} {n₂ : Node} {s₂ : WorkflowState}
      {n₃ : Node} {s₃ : WorkflowState} :
      Reach n₁ s₁ n₂ s₂ → Step n₂ s₂ n₃ s₃ → Reach n₁ s₁ n₃ s₃

/-! Concrete fixtures used by witnesses and counterexamples. -/

/-- A fully-named error record. -/
def errLogical : ErrorDict :=
  { type := some "logical", name := some "off-by-one", error_name := none, check_name := none }

/-- A snippet holding `errLogical`. -/
def snipLogical : CodeSnippet :=
  { code := "A", clean_code := "C", raw_errors := [errLogical], expected_error_count := 1 }

/-- A base session state used to build concrete test states. -/
def fxBase : WorkflowState := initState "medium" "medium" [] [errLogical]

/-- State whose `current_step` is `"regenerate"` while its evaluation is
valid and its budget is exhausted. -/
def fxRegenStep : WorkflowState :=
  { fxBase with
    current_step := "regenerate",
    evaluation_attempts := 5,
    max_evaluation_attempts := 3,
    evaluation_result := some
      { found_errors := ["LOGICAL - off-by-one"], missing_errors := [],
        extra_errors := [], valid := true, feedback := "", original_error_count := 1 } }

/-- C10: whenever `current_step = "regenerate"`, the post-evaluate
decision is `"regenerate_code"`, before any look at the validity flag,
the missing/extra error lists or the attempts budget. -/
theorem regen_step_short_circuits (s : WorkflowState)
    (h : s.current_step = "regenerate") :
    should_regenerate_or_review s = "regenerate_code" := by
  simp [should_regenerate_or_review, h]

/-- C10 witness: a state whose evaluation is valid and whose budget is
exhausted is still routed to regeneration by the explicit step marker. -/
theorem regen_step_short_circuits_witness :
    should_regenerate_or_review fxRegenStep = "regenerate_code" :=
  regen_step_short_circuits fxRegenStep rfl

/-- C4 counterexample: a state whose `evaluation_result` is valid but
whose `current_step` is `"regenerate"` is routed to `"regenerate_code"`,
not `"review_code"`, so the unqualified claim fails. -/
theorem valid_eval_routes_to_review_cex :
    Option.map EvaluationResult.valid fxRegenStep.evaluation_result = some true ∧
    should_regenerate_or_review fxRegenStep ≠ "review_code" := by
  constructor
  · rfl
  · decide

/-- C4 (amended): for every state whose `current_step` is not
`"regenerate"` and whose `evaluation_result` has `valid = true`, the
post-evaluate decision is `"review_code"`. -/
theorem valid_eval_routes_to_review (s : WorkflowState) (r : EvaluationResult)
    (hstep : s.current_step ≠ "regenerate")
    (hr : s.evaluation_result = some r) (hv : r.valid = true) :
    should_regenerate_or_review s = "review_code" := by
  simp [should_regenerate_or_review, hstep, hr, hv]

/-- State with a valid evaluation result sitting at step `"review"`. -/
def fxValidReview : WorkflowState := { fxRegenStep with current_step := "review" }

/-- C4 witness. -/
theorem valid_eval_routes_to_review_witness :
    should_regenerate_or_review fxValidReview = "review_code" :=
  valid_eval_routes_to_review fxValidReview
    { found_errors := ["LOGICAL - off-by-one"], missing_errors := [],
      extra_errors := [], valid := true, feedback := "", original_error_count := 1 }
    (by decide) rfl rfl

/-- State with missing errors, exhausted budget, and the leftover step
marker `"regenerate"`. -/
def fxMissingExhausted : WorkflowState :=
  { fxBase with
    current_step := "regenerate",
    evaluation_attempts := 3,
    max_evaluation_attempts := 3,
    evaluation_result := some
      { found_errors := [], missing_errors := ["LOGICAL - off-by-one"],
        extra_errors := [], valid := false, feedback := "", original_error_count := 1 } }

/-- C5 counterexample: with non-empty `missing_errors`, `valid = false`
and `evaluation_attempts = max_evaluation_attempts`, the decision is
`"regenerate_code"` when `current_step = "regenerate"`, not the
`"review_code"` the claim asserts for every such state. -/
theorem missing_budget_boundary_cex :
    fxMissingExhausted.evaluation_attempts = fxMissingExhausted.max_evaluation_attempts ∧
    Option.map EvaluationResult.missing_errors fxMissingExhausted.evaluation_result =
      some ["LOGICAL - off-by-one"] ∧
    should_regenerate_or_review fxMissingExhausted ≠ "review_code" := by
  refine ⟨rfl, rfl, ?_⟩
  decide

/-- C5 (amended): for every state whose `current_step` is not
`"regenerate"`, with non-empty `missing_errors` and `valid = false`:
one attempt below the budget the decision is `"regenerate_code"`, and at
the budget it is `"review_code"` despite the remaining missing errors.
(`attempts + 1 = max` is the natural-number reading of
`attempts = max - 1`.) -/
theorem missing_budget_boundary (s : WorkflowState) (r : EvaluationResult)
    (hstep : s.current_step ≠ "regenerate")
    (hr : s.evaluation_result = some r)
    (hm : r.missing_errors ≠ []) (hv : r.valid = false) :
    (s.evaluation_attempts + 1 = s.max_evaluation_attempts →
      should_regenerate_or_review s = "regenerate_code") ∧
    (s.evaluation_attempts = s.max_evaluation_attempts →
      should_regenerate_or_review s = "review_code") := by
  have hm' : r.missing_errors.length > 0 := List.length_pos.mpr hm
  constructor
  · intro hA
    have hlt : s.evaluation_attempts < s.max_evaluation_attempts := by omega
    simp [should_regenerate_or_review, hstep, hr, hv, hm', hlt]
  · intro hA
    have hge : ¬ s.evaluation_attempts < s.max_evaluation_attempts := by omega
    simp [should_regenerate_or_review, hstep, hr, hv, hge]

/-- State with missing errors, one attempt below the budget. -/
def fxMissingBelow : WorkflowState :=
  { fxMissingExhausted with current_step := "review", evaluation_attempts := 2 }

/-- C5 witness. -/
theorem missing_budget_boundary_witness :
    (fxMissingBelow.evaluation_attempts + 1 = fxMissingBelow.max_evaluation_attempts →
      should_regenerate_or_review fxMissingBelow = "regenerate_code") ∧
    (fxMissingBelow.evaluation_attempts = fxMissingBelow.max_evaluation_attempts →
      should_regenerate_or_review fxMissingBelow = "review_code") :=
  missing_budget_boundary fxMissingBelow
    { found_errors := [], missing_errors := ["LOGICAL - off-by-one"],
      extra_errors := [], valid := false, feedback := "", original_error_count := 1 }
    (by decide) rfl (by decide) rfl

/-- C6: if the latest review-history entry carries an analysis with
`identified_count = total_problems > 0`, then even with
`current_iteration ≤ max_iterations` and `review_sufficient` previously
false, the post-analyze decision is `"generate_summary"` and
`review_sufficient` is latched to true. -/
theorem all_identified_terminates (s : WorkflowState)
    (lr : ReviewIteration) (a : ReviewAnalysis)
    (hlast : s.review_history.getLast? = some lr)
    (ha : lr.analysis = some a)
    (hid : a.identified_count = a.total_problems)
    (hpos : a.total_problems > 0)
    (hiter : s.current_iteration ≤ s.max_iterations)
    (hsuff : s.review_sufficient = false) :
    (should_continue_review s).1 = "generate_summary" ∧
    (should_continue_review s).2.review_sufficient = true := by
  have hnot : ¬ s.current_iteration > s.max_iterations := by omega
  simp [should_continue_review, hnot, hsuff, hlast, ha, hid, hpos]

/-- State in mid-loop whose latest analysis identifies all 4 problems at
iteration 2 of 3. -/
def fxAllFound : WorkflowState :=
  { fxBase with
    current_iteration := 2,
    review_history :=
      [{ iteration_number := 1, student_review := "r1",
         analysis := some
           { identified_count := 4, total_problems := 4,
             identified_percentage := 100, accuracy_percentage := 100,
             review_sufficient := false, original_error_count := 4 },
         targeted_guidance := none }] }

/-- C6 witness. -/
theorem all_identified_terminates_witness :
    (should_continue_review fxAllFound).1 = "generate_summary" ∧
    (should_continue_review fxAllFound).2.review_sufficient = true :=
  all_identified_terminates fxAllFound
    { iteration_number := 1, student_review := "r1",
      analysis := some
        { identified_count := 4, total_problems := 4,
          identified_percentage := 100, accuracy_percentage := 100,
          review_sufficient := false, original_error_count := 4 },
      targeted_guidance := none }
    { identified_count := 4, total_problems := 4,
      identified_percentage := 100, accuracy_percentage := 100,
      review_sufficient := false, original_error_count := 4 }
    rfl rfl rfl (by decide) (by decide) rfl

/-- C7: when the comparator returns a well-formed dictionary, the stored
evaluation result keeps its found/missing/extra lists and has
`valid = true` exactly when `missing_errors` is empty — the comparator's
own `valid` hint and any extra errors are ignored. -/
theorem eval_valid_iff_no_missing (d : EvalDict) (fb : String)
    (s : WorkflowState) (cs : CodeSnippet) (hs : s.code_snippet = some cs) :
    ∃ r, (evaluate_code_node (RawEvalResult.dict d) fb s).evaluation_result = some r ∧
      r.found_errors = d.found_errors ∧
      r.missing_errors = d.missing_errors ∧
      r.extra_errors = d.extra_errors ∧
      (r.valid = true ↔ r.missing_errors = []) := by
  unfold evaluate_code_node
  rw [hs]
  refine ⟨_, rfl, rfl, rfl, rfl, ?_⟩
  simp [List.length_eq_zero]

/-- A comparator dictionary with a lying `valid = true` hint, a
non-empty missing list and extra errors. -/
def fxLyingDict : EvalDict :=
  { found_errors := ["A - x"], missing_errors := ["B - y"],
    extra_errors := ["C - z"], valid := true, feedback := "f" }

/-- State owning a snippet, ready for evaluation. -/
def fxWithSnippet : WorkflowState := { fxBase with code_snippet := some snipLogical }

/-- C7 witness. -/
theorem eval_valid_iff_no_missing_witness :
    ∃ r, (evaluate_code_node (RawEvalResult.dict fxLyingDict) "fb" fxWithSnippet).evaluation_result
        = some r ∧
      r.found_errors = fxLyingDict.found_errors ∧
      r.missing_errors = fxLyingDict.missing_errors ∧
      r.extra_errors = fxLyingDict.extra_errors ∧
      (r.valid = true ↔ r.missing_errors = []) :=
  eval_valid_iff_no_missing fxLyingDict "fb" fxWithSnippet snipLogical rfl

/-- C9: a malformed (non-dictionary) comparator result is coerced to the
safe default — nothing found, every requested error missing (rendered
`"TYPE - name"`), `valid = false` — and the node does not set the
session error. -/
theorem eval_malformed_safe_default (fb : String) (s : WorkflowState)
    (cs : CodeSnippet) (hs : s.code_snippet = some cs) :
    ∃ r, (evaluate_code_node RawEvalResult.malformed fb s).evaluation_result = some r ∧
      r.found_errors = [] ∧
      r.missing_errors = (extract_requested_errors s).map formatMissing ∧
      r.valid = false ∧
      (evaluate_code_node RawEvalResult.malformed fb s).error = s.error := by
  unfold evaluate_code_node
  rw [hs]
  exact ⟨_, rfl, rfl, rfl, rfl, rfl⟩

/-- C9 witness. -/
theorem eval_malformed_safe_default_witness :
    ∃ r, (evaluate_code_node RawEvalResult.malformed "fb" fxWithSnippet).evaluation_result
        = some r ∧
      r.found_errors = [] ∧
      r.missing_errors = (extract_requested_errors fxWithSnippet).map formatMissing ∧
      r.valid = false ∧
      (evaluate_code_node RawEvalResult.malformed "fb" fxWithSnippet).error
        = fxWithSnippet.error :=
  eval_malformed_safe_default "fb" fxWithSnippet snipLogical rfl

/-- `updateLast` on a list ending in `x` rewrites exactly that `x`. -/
theorem updateLast_concat (f : ReviewIteration → ReviewIteration) :
    ∀ (l : List ReviewIteration) (x : ReviewIteration),
      updateLast f (l ++ [x]) = l ++ [f x] := by
  intro l
  induction l with
  | nil => intro x; rfl
  | cons a t ih =>
    intro x
    cases t with
    | nil => rfl
    | cons b t' =>
      show a :: updateLast f ((b :: t') ++ [x]) = a :: ((b :: t') ++ [f x])
      rw [ih x]

/-- The last element of the history rewritten by `updateLast`. -/
theorem updateLast_getLast? (f : ReviewIteration → ReviewIteration)
    (l : List ReviewIteration) (h : l ≠ []) :
    ∃ x, l.getLast? = some x ∧ (updateLast f l).getLast? = some (f x) := by
  refine ⟨l.getLast h, List.getLast?_eq_getLast l h, ?_⟩
  conv_lhs => rw [← List.dropLast_append_getLast h]
  rw [updateLast_concat, List.getLast?_concat]

/-- C1 (amended): for every `analyze_review_node` call on a session with
`original_error_count > 0` (the guard in `node.py` line 360) that stores
an analysis, the stored analysis has `total_problems` overridden to the
session's `original_error_count`, and both percentages recomputed as
`identified_count / original_error_count * 100` from the raw analysis's
identified count. -/
theorem analyze_overrides_counts (rawA : ReviewAnalysis) (g : String)
    (s : WorkflowState) (cs : CodeSnippet)
    (hoec : 0 < s.original_error_count)
    (hhist : s.review_history ≠ [])
    (hsnip : s.code_snippet = some cs) :
    ∃ lr a, (analyze_review_node rawA g s).review_history.getLast? = some lr ∧
      lr.analysis = some a ∧
      a.total_problems = s.original_error_count ∧
      a.identified_percentage =
        (rawA.identified_count : ℚ) / (s.original_error_count : ℚ) * 100 ∧
      a.accuracy_percentage =
        (rawA.identified_count : ℚ) / (s.original_error_count : ℚ) * 100 := by
  have hne : s.review_history.isEmpty = false := by
    simpa [List.isEmpty_iff] using hhist
  unfold analyze_review_node
  rw [hne, hsnip]
  simp only [Bool.false_eq_true, if_false, if_pos hoec]
  obtain ⟨x, hx, hx'⟩ := updateLast_getLast?
    (fun lr => { lr with
      analysis := some
        { rawA with
          total_problems := s.original_error_count,
          original_error_count := s.original_error_count,
          identified_percentage :=
            (rawA.identified_count : ℚ) / (s.original_error_count : ℚ) * 100,
          accuracy_percentage :=
            (rawA.identified_count : ℚ) / (s.original_error_count : ℚ) * 100,
          review_sufficient :=
            if rawA.identified_count = s.original_error_count then true
            else rawA.review_sufficient },
      targeted_guidance :=
        if ((if rawA.identified_count = s.original_error_count then true
             else rawA.review_sufficient) = false ∧
            s.current_iteration < s.max_iterations) then some g
        else lr.targeted_guidance })
    s.review_history hhist
  exact ⟨_, _, hx', rfl, rfl, rfl, rfl⟩

/-- Session at the analyze step whose `original_error_count` is 0 (a
category-mode generation for which the repository returned no errors). -/
def fxZeroCount : WorkflowState :=
  { fxBase with
    original_error_count := 0,
    code_snippet := some snipLogical,
    review_history :=
      [{ iteration_number := 1, student_review := "r1",
         analysis := none, targeted_guidance := none }] }

/-- Raw evaluator output claiming 3 total problems. -/
def fxRawThree : ReviewAnalysis :=
  { identified_count := 1, total_problems := 3,
    identified_percentage := 0, accuracy_percentage := 0,
    review_sufficient := false, original_error_count := 0 }

/-- `total_problems` of the analysis stored in the latest history entry. -/
def lastStoredTotal (s : WorkflowState) : Option Nat :=
  match s.review_history.getLast? with
  | none => none
  | some lr =>
    match lr.analysis with
    | none => none
    | some a => some a.total_problems

/-- C1 counterexample: when the session's `original_error_count` is 0,
the override of `node.py` lines 359-376 is skipped and the stored
analysis keeps the raw comparator's `total_problems` (3), which differs
from the session's `original_error_count` (0). -/
theorem analyze_overrides_counts_cex :
    lastStoredTotal (analyze_review_node fxRawThree "g" fxZeroCount) = some 3 ∧
    (analyze_review_node fxRawThree "g" fxZeroCount).original_error_count = 0 ∧
    (3 : Nat) ≠ 0 := by
  refine ⟨?_, rfl, by decide⟩
  rfl

/-- Session at the analyze step with `original_error_count = 4`. -/
def fxFourCount : WorkflowState := { fxZeroCount with original_error_count := 4 }

/-- C1 witness: with `original_error_count = 4` and 2 identified, the
stored analysis reads 4 total problems and 50% on both percentages. -/
theorem analyze_overrides_counts_witness :
    ∃ lr a, (analyze_review_node
        { fxRawThree with identified_count := 2 } "g" fxFourCount).review_history.getLast?
        = some lr ∧
      lr.analysis = some a ∧
      a.total_problems = fxFourCount.original_error_count ∧
      a.identified_percentage =
        ((({ fxRawThree with identified_count := 2 } : ReviewAnalysis).identified_count : ℚ) /
          (fxFourCount.original_error_count : ℚ) * 100) ∧
      a.accuracy_percentage =
        ((({ fxRawThree with identified_count := 2 } : ReviewAnalysis).identified_count : ℚ) /
          (fxFourCount.original_error_count : ℚ) * 100) :=
  analyze_overrides_counts { fxRawThree with identified_count := 2 } "g"
    fxFourCount snipLogical (by decide) (by decide) rfl

/-- The error list carried by the session's snippet. -/
def snippetErrors (s : WorkflowState) : Option (List ErrorDict) :=
  match s.code_snippet with
  | none => none
  | some cs => some cs.raw_errors

/-- The reads of `get_error_count_from_state` are untouched by the
resets at the head of `generate_code_node`. -/
theorem get_error_count_resets (env : GenEnv) (s : WorkflowState) (d : String) :
    get_error_count_from_state
      (if ({ s with
              evaluation_attempts := 0, evaluation_result := none,
              code_generation_feedback := none } : WorkflowState).domain.getD "" = ""
       then ({ s with
                evaluation_attempts := 0, evaluation_result := none,
                code_generation_feedback := none,
                domain := some env.domain_choice } : WorkflowState)
       else ({ s with
                evaluation_attempts := 0, evaluation_result := none,
                code_generation_feedback := none } : WorkflowState)) d
      = get_error_count_from_state s d := by
  unfold get_error_count_from_state
  split <;> rfl

/-- C8 (amended): in category-based mode the target count is what
`get_error_count_from_state` computes — the session's
`original_error_count` when already positive, else
`max(number of selected categories, 2)`; the difficulty→count mapping is
only the fallback of that function when no categories are present.  The
catalog result is truncated to the target when longer, and used as-is
(with `original_error_count` set to its length) when not longer. -/
theorem category_mode_count_reconciliation (env : GenEnv) (s : WorkflowState)
    (hspec : s.selected_specific_errors = [])
    (hcats : s.selected_error_categories ≠ []) :
    get_error_count_from_state s s.difficulty_level =
      (if 0 < s.original_error_count then s.original_error_count
       else max s.selected_error_categories.length 2) ∧
    (env.repo_errors.length ≤ get_error_count_from_state s s.difficulty_level →
      (generate_code_node env s).original_error_count = env.repo_errors.length ∧
      snippetErrors (generate_code_node env s) = some env.repo_errors) ∧
    (get_error_count_from_state s s.difficulty_level < env.repo_errors.length →
      (generate_code_node env s).original_error_count
        = get_error_count_from_state s s.difficulty_level ∧
      snippetErrors (generate_code_node env s) =
        some (env.repo_errors.take (get_error_count_from_state s s.difficulty_level))) := by
  have hspec0 : ¬ s.selected_specific_errors.length > 0 := by simp [hspec]
  have hcats0 : s.selected_error_categories.length > 0 := List.length_pos.mpr hcats
  refine ⟨?_, ?_, ?_⟩
  · unfold get_error_count_from_state
    rw [if_neg hspec0, if_pos hcats0]
  · intro hle
    unfold generate_code_node
    rw [if_neg hspec0, if_neg hcats]
    rw [get_error_count_resets env s]
    rcases Nat.lt_or_ge env.repo_errors.length (get_error_count_from_state s s.difficulty_level)
      with hlt | hge
    · rw [if_pos hlt]
      constructor <;> simp [finishGenerate, snippetErrors]
    · have heq : env.repo_errors.length = get_error_count_from_state s s.difficulty_level :=
        Nat.le_antisymm hle hge
      rw [if_neg (by omega), if_neg (by omega)]
      constructor <;> simp [finishGenerate, snippetErrors, heq]
  · intro hlt
    unfold generate_code_node
    rw [if_neg hspec0, if_neg hcats]
    rw [get_error_count_resets env s]
    rw [if_neg (by omega), if_pos hlt]
    constructor <;> simp [finishGenerate, snippetErrors]

/-- Category-mode session: difficulty `"hard"`, one category. -/
def fxHardOneCat : WorkflowState := initState "medium" "hard" ["Logical"] []

/-- A repository answer of three errors. -/
def fxThreeErrors : GenEnv :=
  { domain_choice := "banking", repo_errors := [errLogical, errLogical, errLogical],
    annotated := "A", clean := "C" }

/-- C8 counterexample: with difficulty `"hard"` and one selected
category the code's target is `max(1, 2) = 2` — not the claimed
difficulty-map value 6 — so the three returned errors are truncated to 2
and `original_error_count` is 2, where the claim predicts the three
errors would be kept as-is (target 6 > 3) with count 3. -/
theorem category_mode_count_cex :
    get_error_count_from_state fxHardOneCat "hard" = 2 ∧
    (2 : Nat) ≠ 6 ∧
    (generate_code_node fxThreeErrors fxHardOneCat).original_error_count = 2 ∧
    (2 : Nat) ≠ 3 := by
  refine ⟨?_, by decide, ?_, by decide⟩ <;> rfl

/-- Category-mode session with four categories, difficulty `"easy"`. -/
def fxFourCats : WorkflowState := initState "medium" "easy" ["a", "b", "c", "d"] []

/-- C8 witness: four categories give target `max(4, 2) = 4`; a
three-error repository answer is kept as-is with count 3. -/
theorem category_mode_count_reconciliation_witness :
    get_error_count_from_state fxFourCats fxFourCats.difficulty_level =
      (if 0 < fxFourCats.original_error_count then fxFourCats.original_error_count
       else max fxFourCats.selected_error_categories.length 2) ∧
    (fxThreeErrors.repo_errors.length ≤
        get_error_count_from_state fxFourCats fxFourCats.difficulty_level →
      (generate_code_node fxThreeErrors fxFourCats).original_error_count
        = fxThreeErrors.repo_errors.length ∧
      snippetErrors (generate_code_node fxThreeErrors fxFourCats)
        = some fxThreeErrors.repo_errors) ∧
    (get_error_count_from_state fxFourCats fxFourCats.difficulty_level <
        fxThreeErrors.repo_errors.length →
      (generate_code_node fxThreeErrors fxFourCats).original_error_count
        = get_error_count_from_state fxFourCats fxFourCats.difficulty_level ∧
      snippetErrors (generate_code_node fxThreeErrors fxFourCats) =
        some (fxThreeErrors.repo_errors.take
          (get_error_count_from_state fxFourCats fxFourCats.difficulty_level))) :=
  category_mode_count_reconciliation fxThreeErrors fxFourCats rfl (by decide)

/-! Field-preservation and routing lemmas used by the session-trace
invariants. -/

/-- What one `generate_code_node` run does to the bookkeeping fields:
attempts reset, result cleared, budget and latch untouched; on success
a snippet is installed and the step moves to `"evaluate"`, on the input
error paths snippet and step are untouched. -/
theorem generate_fields (env : GenEnv) (s : WorkflowState) :
    (generate_code_node env s).evaluation_attempts = 0 ∧
    (generate_code_node env s).max_evaluation_attempts = s.max_evaluation_attempts ∧
    (generate_code_node env s).evaluation_result = none ∧
    (generate_code_node env s).review_sufficient = s.review_sufficient ∧
    ((generate_code_node env s).code_snippet = s.code_snippet ∧
        (generate_code_node env s).current_step = s.current_step ∨
      (generate_code_node env s).code_snippet ≠ none ∧
        (generate_code_node env s).current_step = "evaluate") := by
  simp only [generate_code_node, finishGenerate]
  split_ifs <;> simp

/-- `evaluate_code_node` without a snippet only records the error. -/
theorem evaluate_none (raw : RawEvalResult) (fb : String) (s : WorkflowState)
    (hs : s.code_snippet = none) :
    evaluate_code_node raw fb s = { s with error := some "no_code_snippet_evaluation" } := by
  unfold evaluate_code_node
  rw [hs]

/-- What one full `evaluate_code_node` run does to the bookkeeping
fields: exactly one attempt consumed, budget/snippet/latch untouched, a
result stored, and the step moved to `"review"`, or to `"regenerate"`
only under the remaining budget. -/
theorem evaluate_fields (raw : RawEvalResult) (fb : String) (s : WorkflowState)
    (cs : CodeSnippet) (hs : s.code_snippet = some cs) :
    (evaluate_code_node raw fb s).evaluation_attempts = s.evaluation_attempts + 1 ∧
    (evaluate_code_node raw fb s).max_evaluation_attempts = s.max_evaluation_attempts ∧
    (evaluate_code_node raw fb s).code_snippet = s.code_snippet ∧
    (evaluate_code_node raw fb s).review_sufficient = s.review_sufficient ∧
    ((evaluate_code_node raw fb s).current_step = "review" ∨
      (evaluate_code_node raw fb s).current_step = "regenerate" ∧
        s.evaluation_attempts + 1 < s.max_evaluation_attempts) := by
  unfold evaluate_code_node
  rw [hs]
  cases raw <;> simp only [] <;> split_ifs <;> simp_all

/-- The post-evaluate router answers `"regenerate_code"` only for the
explicit step marker or under the remaining budget. -/
theorem srr_regen_cases (s : WorkflowState)
    (h : should_regenerate_or_review s = "regenerate_code") :
    s.current_step = "regenerate" ∨
      s.evaluation_attempts < s.max_evaluation_attempts := by
  simp only [should_regenerate_or_review] at h
  split_ifs at h with h1 h2 h3
  · exact Or.inl h1
  · exact absurd h (by decide)
  · exact Or.inr h3.2
  · exact absurd h (by decide)

/-- The conditional edge out of `evaluate_code` goes to
`regenerate_code` only when the router said so. -/
theorem evalNext_eq_regen (s : WorkflowState)
    (h : evalNext s = Node.regenerate_code) :
    should_regenerate_or_review s = "regenerate_code" := by
  unfold evalNext at h
  split_ifs at h with h1
  exact h1

/-- The edge out of `evaluate_code` only targets the regenerate or
review nodes. -/
theorem evalNext_cases (s : WorkflowState) :
    evalNext s = Node.regenerate_code ∨ evalNext s = Node.review_code := by
  unfold evalNext
  split_ifs <;> simp

/-- Without a snippet and a prior result, and away from the explicit
`"regenerate"` marker, the post-evaluate router answers review. -/
theorem srr_no_result (s : WorkflowState)
    (hstep : s.current_step ≠ "regenerate") (hres : s.evaluation_result = none) :
    should_regenerate_or_review s = "review_code" := by
  simp [should_regenerate_or_review, hstep, hres]

/-- The edge out of `analyze_review` only targets the review node or
the summary sink. -/
theorem analyzeNext_cases (d : String) :
    analyzeNext d = Node.review_code ∨ analyzeNext d = Node.generate_summary := by
  unfold analyzeNext
  split_ifs <;> simp

/-- What one `analyze_review_node` run does to the bookkeeping fields:
attempts, budget, snippet and stored evaluation are untouched; the step
becomes `"analyze"` on the full path and is untouched on the
input-error paths. -/
theorem analyze_fields (rawA : ReviewAnalysis) (g : String) (s : WorkflowState) :
    (analyze_review_node rawA g s).evaluation_attempts = s.evaluation_attempts ∧
    (analyze_review_node rawA g s).max_evaluation_attempts = s.max_evaluation_attempts ∧
    (analyze_review_node rawA g s).code_snippet = s.code_snippet ∧
    (analyze_review_node rawA g s).evaluation_result = s.evaluation_result ∧
    ((analyze_review_node rawA g s).current_step = "analyze" ∨
      (analyze_review_node rawA g s).current_step = s.current_step) := by
  unfold analyze_review_node
  split
  · simp
  · split <;> simp

/-- Complete case analysis of `should_continue_review`: it answers the
summary decision leaving the state alone or latching the flag, or it
answers continue leaving the state alone with the latch (still) false. -/
theorem scr_cases (s : WorkflowState) :
    should_continue_review s = ("generate_summary", s) ∨
    should_continue_review s = ("generate_summary", { s with review_sufficient := true }) ∨
    (should_continue_review s = ("continue_review", s) ∧ s.review_sufficient = false) := by
  by_cases h1 : s.current_iteration > s.max_iterations
  · exact Or.inl (by simp [should_continue_review, h1])
  by_cases h2 : s.review_sufficient = true
  · exact Or.inl (by simp [should_continue_review, h1, h2])
  have hsf : s.review_sufficient = false := by
    simpa using h2
  rcases hl : s.review_history.getLast? with _ | l
  · exact Or.inr (Or.inr ⟨by simp [should_continue_review, h1, hsf, hl], hsf⟩)
  rcases ha : l.analysis with _ | a
  · exact Or.inr (Or.inr ⟨by simp [should_continue_review, h1, hsf, hl, ha], hsf⟩)
  by_cases h3 : a.identified_count = a.total_problems ∧ a.total_problems > 0
  · exact Or.inr (Or.inl (by simp [should_continue_review, h1, hsf, hl, ha, h3]))
  · exact Or.inr (Or.inr ⟨by simp [should_continue_review, h1, hsf, hl, ha, h3], hsf⟩)

/-- `should_continue_review` either returns the state unchanged or only
latches `review_sufficient` to true. -/
theorem scr_state_shape (s : WorkflowState) :
    (should_continue_review s).2 = s ∨
      (should_continue_review s).2 = { s with review_sufficient := true } := by
  rcases scr_cases s with h | h | ⟨h, -⟩ <;> rw [h]
  · exact Or.inl rfl
  · exact Or.inr rfl
  · exact Or.inl rfl

/-- If the state coming out of the post-analyze router has the latch
set, the router sent the session to the summary sink. -/
theorem scr_sufficient_summary (s : WorkflowState)
    (h : (should_continue_review s).2.review_sufficient = true) :
    analyzeNext (should_continue_review s).1 = Node.generate_summary := by
  rcases scr_cases s with hc | hc | ⟨hc, hsf⟩ <;> rw [hc]
  · rfl
  · rfl
  · rw [hc] at h
    rw [h] at hsf
    exact absurd hsf (by decide)

/-- The latch invariant: a session can only carry `review_sufficient =
true` at the summary sink, because both places that set the latch
(`analyze_review_node` line 388 via the analysis, and
`should_continue_review` rule 3) immediately route to the summary. -/
theorem step_preserves_suffInv {n₁ : Node} {s₁ : WorkflowState}
    {n₂ : Node} {s₂ : WorkflowState} (h : Step n₁ s₁ n₂ s₂)
    (hInv : s₁.review_sufficient = true → n₁ = Node.generate_summary) :
    s₂.review_sufficient = true → n₂ = Node.generate_summary := by
  cases h with
  | generate env =>
    intro hsuff
    rw [(generate_fields env s₁).2.2.2.1] at hsuff
    exact absurd (hInv hsuff) (by decide)
  | evaluate raw fb =>
    intro hsuff
    rcases hcs : s₁.code_snippet with _ | cs
    · rw [evaluate_none raw fb s₁ hcs] at hsuff
      exact absurd (hInv hsuff) (by decide)
    · rw [(evaluate_fields raw fb s₁ cs hcs).2.2.2.1] at hsuff
      exact absurd (hInv hsuff) (by decide)
  | regenerate_llm annotated clean =>
    intro hsuff
    exact absurd (hInv hsuff) (by decide)
  | regenerate_fallback env =>
    intro hsuff
    rw [(generate_fields env s₁).2.2.2.1] at hsuff
    exact absurd (hInv hsuff) (by decide)
  | review text =>
    intro hsuff
    exact absurd (hInv hsuff) (by decide)
  | analyze rawA g =>
    exact scr_sufficient_summary (analyze_review_node rawA g s₁)

/-- The latch invariant holds at every configuration reachable from a
session start with the latch unset. -/
theorem reach_suffInv {s0 : WorkflowState} {n : Node} {s : WorkflowState}
    (h : Reach Node.generate_code s0 n s) (h0 : s0.review_sufficient = false) :
    s.review_sufficient = true → n = Node.generate_summary := by
  induction h with
  | refl =>
    intro hs
    rw [h0] at hs
    exact absurd hs (by decide)
  | tail h1 h2 ih => exact step_preserves_suffInv h2 ih

/-- The summary sink has no outgoing step. -/
theorem no_step_from_summary {s : WorkflowState} {n' : Node} {s' : WorkflowState} :
    ¬ Step Node.generate_summary s n' s' := fun h => nomatch h

/-- A session at the summary sink stays exactly there. -/
theorem reach_from_summary {n : Node} {s : WorkflowState} {n' : Node} {s' : WorkflowState}
    (h : Reach n s n' s') (hn : n = Node.generate_summary) : n' = n ∧ s' = s := by
  induction h with
  | refl => exact ⟨rfl, rfl⟩
  | tail h1 h2 ih =>
    obtain ⟨hn2, hs2⟩ := ih
    rw [hn2, hn] at h2
    exact absurd h2 no_step_from_summary

/-- C2: within a session (any run of the workflow graph from a fresh
session start), once `review_sufficient` is true it stays true: no later
node handler or decision function resets it.  The session start is
spec-modelled (`initState`, `submit_review_append`). -/
theorem review_sufficient_latch (code_length difficulty : String)
    (categories : List String) (specific : List ErrorDict)
    (n₁ : Node) (s₁ : WorkflowState) (n₂ : Node) (s₂ : WorkflowState)
    (h₁ : Reach Node.generate_code (initState code_length difficulty categories specific) n₁ s₁)
    (h₂ : Reach n₁ s₁ n₂ s₂)
    (hs : s₁.review_sufficient = true) :
    s₂.review_sufficient = true := by
  have hn : n₁ = Node.generate_summary := reach_suffInv h₁ rfl hs
  obtain ⟨-, hs2⟩ := reach_from_summary h₂ hn
  rw [hs2]
  exact hs

/-- Session start for the witness trace. -/
def wit_s0 : WorkflowState := initState "medium" "medium" [] [errLogical]

/-- Generation environment for the witness trace. -/
def wit_env : GenEnv :=
  { domain_choice := "banking", repo_errors := [], annotated := "A", clean := "C" }

/-- State after the generate step of the witness trace. -/
def wit_s1 : WorkflowState := generate_code_node wit_env wit_s0

/-- Comparator answer finding the single requested error. -/
def wit_dict : EvalDict :=
  { found_errors := ["LOGICAL - off-by-one"], missing_errors := [],
    extra_errors := [], valid := true, feedback := "" }

/-- State after the evaluate step of the witness trace. -/
def wit_s2 : WorkflowState := evaluate_code_node (RawEvalResult.dict wit_dict) "fb" wit_s1

/-- State after the review step of the witness trace. -/
def wit_s3 : WorkflowState := submit_review_append "found the off-by-one" (review_code_node wit_s2)

/-- Evaluator answer identifying the one known problem. -/
def wit_rawA : ReviewAnalysis :=
  { identified_count := 1, total_problems := 1, identified_percentage := 0,
    accuracy_percentage := 0, review_sufficient := false, original_error_count := 0 }

/-- Final state of the witness trace, out of the post-analyze router. -/
def wit_s4 : WorkflowState :=
  (should_continue_review (analyze_review_node wit_rawA "g" wit_s3)).2

/-- C2 witness: a concrete four-step session whose analysis identifies
all errors reaches the summary sink with the latch set, and the theorem
applied there keeps it set. -/
theorem review_sufficient_latch_witness : wit_s4.review_sufficient = true := by
  have st1 : Step Node.generate_code wit_s0 Node.evaluate_code wit_s1 :=
    Step.generate wit_env wit_s0
  have st2 : Step Node.evaluate_code wit_s1 Node.review_code wit_s2 := by
    have h := Step.evaluate (RawEvalResult.dict wit_dict) "fb" wit_s1
    have he : evalNext (evaluate_code_node (RawEvalResult.dict wit_dict) "fb" wit_s1)
        = Node.review_code := by decide
    rw [he] at h
    exact h
  have st3 : Step Node.review_code wit_s2 Node.analyze_review wit_s3 :=
    Step.review "found the off-by-one" wit_s2
  have st4 : Step Node.analyze_review wit_s3 Node.generate_summary wit_s4 := by
    have h := Step.analyze wit_rawA "g" wit_s3
    have ha : analyzeNext (should_continue_review (analyze_review_node wit_rawA "g" wit_s3)).1
        = Node.generate_summary := by decide
    rw [ha] at h
    exact h
  have r4 : Reach Node.generate_code wit_s0 Node.generate_summary wit_s4 :=
    Reach.tail (Reach.tail (Reach.tail (Reach.tail (Reach.refl _ _) st1) st2) st3) st4
  exact review_sufficient_latch "medium" "medium" [] [errLogical]
    Node.generate_summary wit_s4 Node.generate_summary wit_s4
    r4 (Reach.refl _ _) (by decide)

/-- The inductive invariant for the retry budget: the attempts counter
never passes the budget; the budget is at least one; the evaluate node
is only entered under budget (or with no snippet, in which case it does
not count an attempt); a snippet-less session is pristine (no attempt
consumed, no leftover `"regenerate"` marker, no stored result); and the
regenerate node is only entered under budget. -/
def BudgetInv (n : Node) (s : WorkflowState) : Prop :=
  s.evaluation_attempts ≤ s.max_evaluation_attempts ∧
  1 ≤ s.max_evaluation_attempts ∧
  (n = Node.evaluate_code →
    s.evaluation_attempts < s.max_evaluation_attempts ∨ s.code_snippet = none) ∧
  (s.code_snippet = none →
    s.evaluation_attempts = 0 ∧ s.current_step ≠ "regenerate" ∧ s.evaluation_result = none) ∧
  (n = Node.regenerate_code →
    s.evaluation_attempts < s.max_evaluation_attempts)

/-- One workflow step preserves the budget invariant. -/
theorem step_preserves_budgetInv {n₁ : Node} {s₁ : WorkflowState}
    {n₂ : Node} {s₂ : WorkflowState} (h : Step n₁ s₁ n₂ s₂)
    (hI : BudgetInv n₁ s₁) : BudgetInv n₂ s₂ := by
  obtain ⟨hA, hE, hB, hC, hD⟩ := hI
  cases h with
  | generate env =>
    obtain ⟨g1, g2, g3, g4, g5⟩ := generate_fields env s₁
    refine ⟨?_, ?_, ?_, ?_, ?_⟩
    · rw [g1]; exact Nat.zero_le _
    · rw [g2]; exact hE
    · intro _
      left
      rw [g1, g2]
      omega
    · intro hnone
      rcases g5 with ⟨gs, gt⟩ | ⟨gs, gt⟩
      · rw [gs] at hnone
        obtain ⟨c1, c2, c3⟩ := hC hnone
        refine ⟨g1, ?_, g3⟩
        rw [gt]
        exact c2
      · exact absurd hnone gs
    · intro hn2
      exact absurd hn2 (by decide)
  | evaluate raw fb =>
    rcases hcs : s₁.code_snippet with _ | cs
    · obtain ⟨c1, c2, c3⟩ := hC hcs
      have hEq := evaluate_none raw fb s₁ hcs
      have hsrr : should_regenerate_or_review (evaluate_code_node raw fb s₁) = "review_code" := by
        rw [hEq]
        exact srr_no_result _ c2 c3
      have hnext : evalNext (evaluate_code_node raw fb s₁) = Node.review_code := by
        unfold evalNext
        rw [hsrr, if_neg (by decide)]
      rw [hnext, hEq]
      exact ⟨hA, hE, fun hn => absurd hn (by decide), fun hn => ⟨c1, c2, c3⟩,
        fun hn => absurd hn (by decide)⟩
    · obtain ⟨e1, e2, e3, e4, e5⟩ := evaluate_fields raw fb s₁ cs hcs
      have hlt : s₁.evaluation_attempts < s₁.max_evaluation_attempts := by
        rcases hB rfl with h | h
        · exact h
        · rw [hcs] at h
          exact absurd h (by simp)
      refine ⟨?_, ?_, ?_, ?_, ?_⟩
      · rw [e1, e2]; omega
      · rw [e2]; exact hE
      · intro hn2
        rcases evalNext_cases (evaluate_code_node raw fb s₁) with h | h <;>
          rw [hn2] at h <;> exact absurd h (by decide)
      · intro hnone
        rw [e3, hcs] at hnone
        exact absurd hnone (by simp)
      · intro hn2
        have hsrr := evalNext_eq_regen _ hn2
        rcases srr_regen_cases _ hsrr with hstep | hlt2
        · rcases e5 with h5 | ⟨h5, h5b⟩
          · rw [h5] at hstep
            exact absurd hstep (by decide)
          · rw [e1, e2]
            exact h5b
        · exact hlt2
  | regenerate_llm annotated clean =>
    have hlt := hD rfl
    refine ⟨hA, hE, ?_, ?_, ?_⟩
    · intro _
      exact Or.inl hlt
    · intro hnone
      simp [regenerate_code_node_llm] at hnone
    · intro hn2
      exact absurd hn2 (by decide)
  | regenerate_fallback env =>
    obtain ⟨g1, g2, g3, g4, g5⟩ := generate_fields env s₁
    refine ⟨?_, ?_, ?_, ?_, ?_⟩
    · rw [g1]; exact Nat.zero_le _
    · rw [g2]; exact hE
    · intro _
      left
      rw [g1, g2]
      omega
    · intro hnone
      rcases g5 with ⟨gs, gt⟩ | ⟨gs, gt⟩
      · rw [gs] at hnone
        obtain ⟨c1, c2, c3⟩ := hC hnone
        refine ⟨g1, ?_, g3⟩
        rw [gt]
        exact c2
      · exact absurd hnone gs
    · intro hn2
      exact absurd hn2 (by decide)
  | review text =>
    refine ⟨hA, hE, ?_, ?_, ?_⟩
    · intro hn2
      exact absurd hn2 (by decide)
    · intro hnone
      obtain ⟨c1, c2, c3⟩ := hC hnone
      refine ⟨c1, ?_, c3⟩
      show ("review" : String) ≠ "regenerate"
      decide
    · intro hn2
      exact absurd hn2 (by decide)
  | analyze rawA g =>
    obtain ⟨a1, a2, a3, a4, a5⟩ := analyze_fields rawA g s₁
    have hBD1 : analyzeNext (should_continue_review (analyze_review_node rawA g s₁)).1
        ≠ Node.evaluate_code := by
      rcases analyzeNext_cases (should_continue_review (analyze_review_node rawA g s₁)).1
        with h | h <;> rw [h] <;> decide
    have hBD2 : analyzeNext (should_continue_review (analyze_review_node rawA g s₁)).1
        ≠ Node.regenerate_code := by
      rcases analyzeNext_cases (should_continue_review (analyze_review_node rawA g s₁)).1
        with h | h <;> rw [h] <;> decide
    rcases scr_state_shape (analyze_review_node rawA g s₁) with hsh | hsh <;> rw [hsh] <;>
      refine ⟨?_, ?_, fun hn => absurd hn hBD1, ?_, fun hn => absurd hn hBD2⟩
    · rw [a1, a2]; exact hA
    · rw [a2]; exact hE
    · intro hnone
      rw [a3] at hnone
      obtain ⟨c1, c2, c3⟩ := hC hnone
      refine ⟨by rw [a1]; exact c1, ?_, by rw [a4]; exact c3⟩
      rcases a5 with h5 | h5 <;> rw [h5]
      · decide
      · exact c2
    · rw [a1, a2]; exact hA
    · rw [a2]; exact hE
    · intro hnone
      rw [a3] at hnone
      obtain ⟨c1, c2, c3⟩ := hC hnone
      refine ⟨by rw [a1]; exact c1, ?_, by rw [a4]; exact c3⟩
      rcases a5 with h5 | h5 <;> rw [h5]
      · decide
      · exact c2

/-- The budget invariant holds at every reachable configuration. -/
theorem reach_budgetInv {s0 : WorkflowState} {n : Node} {s : WorkflowState}
    (h : Reach Node.generate_code s0 n s)
    (h0 : BudgetInv Node.generate_code s0) : BudgetInv n s := by
  induction h with
  | refl => exact h0
  | tail h1 h2 ih => exact step_preserves_budgetInv h2 ih

/-- C3: along every session from a fresh start, the attempts counter
never exceeds the budget; a full evaluate run consumes exactly one
attempt; and the regenerate node is only ever entered strictly under
the budget.  The session start is spec-modelled (`initState`,
`submit_review_append`). -/
theorem evaluation_attempts_bounded (code_length difficulty : String)
    (categories : List String) (specific : List ErrorDict)
    (raw : RawEvalResult) (fb : String) (n : Node) (s : WorkflowState)
    (h : Reach Node.generate_code (initState code_length difficulty categories specific) n s) :
    s.evaluation_attempts ≤ s.max_evaluation_attempts ∧
    (s.code_snippet ≠ none →
      (evaluate_code_node raw fb s).evaluation_attempts = s.evaluation_attempts + 1) ∧
    (n = Node.regenerate_code →
      s.evaluation_attempts < s.max_evaluation_attempts) := by
  have h0 : BudgetInv Node.generate_code (initState code_length difficulty categories specific) := by
    refine ⟨?_, ?_, fun hn => absurd hn (by decide), ?_, fun hn => absurd hn (by decide)⟩
    · show (0 : Nat) ≤ 3
      decide
    · show (1 : Nat) ≤ 3
      decide
    · intro _
      refine ⟨rfl, ?_, rfl⟩
      show ("generate" : String) ≠ "regenerate"
      decide
  obtain ⟨hA, hE, hB, hC, hD⟩ := reach_budgetInv h h0
  refine ⟨hA, ?_, hD⟩
  intro hcs
  obtain ⟨cs, hcs'⟩ := Option.ne_none_iff_exists'.mp hcs
  exact (evaluate_fields raw fb s cs hcs').1

/-- C3 witness: the theorem applied at the session start itself. -/
theorem evaluation_attempts_bounded_witness :
    (initState "medium" "medium" [] [errLogical]).evaluation_attempts ≤
      (initState "medium" "medium" [] [errLogical]).max_evaluation_attempts ∧
    ((initState "medium" "medium" [] [errLogical]).code_snippet ≠ none →
      (evaluate_code_node RawEvalResult.malformed "fb"
        (initState "medium" "medium" [] [errLogical])).evaluation_attempts =
        (initState "medium" "medium" [] [errLogical]).evaluation_attempts + 1) ∧
    (Node.generate_code = Node.regenerate_code →
      (initState "medium" "medium" [] [errLogical]).evaluation_attempts <
        (initState "medium" "medium" [] [errLogical]).max_evaluation_attempts) :=
  evaluation_attempts_bounded "medium" "medium" [] [errLogical]
    RawEvalResult.malformed "fb" Node.generate_code
    (initState "medium" "medium" [] [errLogical]) (Reach.refl _ _)

end PeerReview
